import Mathlib

/-!
Verification of the NewsSense agent core (src/main.py, src/ui_Main.py).

The three capability invokers (`get_trending_news`, `fact_check_claim`,
`summarize_news`) each wrap one outbound HTTP call in a try/except and
return a JSON-serialisable payload.  We embed each invoker as a total
Lean function over an inductive describing the possible provider
outcomes (a response with a status, body and text; or a raised
exception).  The body of the Python `try` block becomes an
`Except String _`-valued "inner" function; the surrounding `except`
clause becomes the total outer function that converts any error into
the degraded payload the source builds.  Python string operations
(`str.strip`, `str.strip(chars)`, `str.split("\n")`) are embedded
character-exactly over ASCII whitespace.
-/

namespace NewsSense

/-! ### Python string primitives -/

/-- The whitespace characters stripped by Python `str.strip()`
(ASCII subset: space, tab, newline, carriage return, vertical tab,
form feed). -/
def pyWhitespace : List Char := [' ', '\t', '\n', '\r', '\x0b', '\x0c']

/-- Python `s.strip(chars)`: drop characters belonging to `cs` from both
ends of `s`. -/
def stripChars (cs : List Char) (s : String) : String :=
  ⟨((s.data.dropWhile (cs.contains ·)).reverse.dropWhile (cs.contains ·)).reverse⟩

/-- Python `s.strip()` (no argument): strip whitespace from both ends. -/
def pyStrip (s : String) : String := stripChars pyWhitespace s

/-- Split a character list at every occurrence of `c`, keeping empty
segments, like Python `str.split` with an explicit separator. -/
def splitOnChar (c : Char) : List Char → List (List Char)
  | [] => [[]]
  | x :: xs =>
    let r := splitOnChar c xs
    if x = c then [] :: r
    else
      match r with
      | [] => [[x]]
      | h :: t => (x :: h) :: t

/-- Python `s.split("\n")`. -/
def pySplitNl (s : String) : List String :=
  (splitOnChar '\n' s.data).map (fun l => ⟨l⟩)

/-- The character set of the literal `"-• "` passed to `line.strip` in
`summarize_news` (src/main.py line 148): dash, bullet, space. -/
def bulletChars : List Char := ['-', '•', ' ']

/-! ### Data model (src/main.py lines 33-60)

`TrendingItem` embeds the dictionaries built by `get_trending_news`;
its `category` field is `Option String` because the source stores the
raw `topic` argument there, which may be `None` (serialised as JSON
`null`). -/

structure TrendingItem where
  headline : String
  source : String
  category : Option String
  summary : String
  rank : Nat
deriving DecidableEq, Repr

structure FactCheckResult where
  is_true : Option Bool
  verdict : String
  sources : List String
deriving DecidableEq, Repr

structure NewsSummary where
  topic : String
  bullet_points : List String
deriving DecidableEq, Repr

/-- `UserContext` (src/main.py lines 50-60): the dataclass after
`__post_init__` has run.  Timestamps are abstracted as `Nat`. -/
structure UserContext where
  user_id : String
  preferred_topics : List String
  session_start : Nat
deriving DecidableEq, Repr

/-- Construction of `UserContext(user_id, preferred_topics, session_start)`
followed by `__post_init__`: a `None` topics argument becomes `[]`, a
`None` session-start becomes the current time `now`. -/
def UserContext.make (user_id : String) (preferred_topics : Option (List String))
    (session_start : Option Nat) (now : Nat) : UserContext :=
  { user_id := user_id
    preferred_topics := preferred_topics.getD []
    session_start := session_start.getD now }

/-! ### Configuration check (src/main.py lines 21-29) -/

/-- The six environment variables read at startup; `none` models an
absent variable. -/
structure Env where
  BASE_URL : Option String
  API_KEY : Option String
  MODEL_NAME : Option String
  GNEWS_API_KEY : Option String
  GOOGLE_API_KEY : Option String
  SEARCH_ENGINE_ID : Option String
deriving DecidableEq, Repr

/-- Python truthiness of an `os.getenv` result: `None` and the empty
string are falsy. -/
def envTruthy : Option String → Bool
  | none => false
  | some s => s ≠ ""

/-- The module-level check `if not BASE_URL or not API_KEY or not
MODEL_NAME: raise ValueError(...)` (src/main.py lines 28-29), run before
any agent or tool is defined. -/
def startupCheck (e : Env) : Except String Unit :=
  if !envTruthy e.BASE_URL || !envTruthy e.API_KEY || !envTruthy e.MODEL_NAME then
    .error "Please set BASE_URL, API_KEY, and MODEL_NAME in your environment."
  else
    .ok ()

/-! ### get_trending_news (src/main.py lines 63-117) -/

/-- One article dictionary from the GNews response: each field read via
`.get` with a default, so each is optional. -/
structure Article where
  title : Option String
  sourceName : Option String
  description : Option String
deriving DecidableEq, Repr

/-- Outcome of `requests.get` inside `get_trending_news`: either a
response carrying a status code, raw text and a body (whose JSON
decoding into an article list may itself fail), or a raised exception
with its message. -/
inductive NewsHttp where
  | response (status : Nat) (text : String) (body : Except String (List Article))
  | failure (msg : String)
deriving Repr

/-- The list comprehension at src/main.py lines 98-106: the i-th article
(counting from `i0`) becomes an item with `rank = i + 1` and defaulted
fields. -/
def rankArticles (topic : Option String) : Nat → List Article → List TrendingItem
  | _, [] => []
  | i, a :: rest =>
      { headline := a.title.getD "No headline"
        source := a.sourceName.getD "Unknown"
        category := topic
        summary := a.description.getD ""
        rank := i + 1 } :: rankArticles topic (i + 1) rest

/-- Body of the `try` block of `get_trending_news`: non-200 statuses
return the synthetic failure item without touching the body; a body
decoding error is a raised exception; an empty article list returns the
synthetic "No news found" item. -/
def get_trending_news_inner (topic : Option String) : NewsHttp → Except String (List TrendingItem)
  | .failure msg => .error msg
  | .response status text body =>
      if status ≠ 200 then
        .ok [{ headline := "Failed to fetch news"
               source := "System"
               category := topic
               summary := "API error " ++ toString status ++ ": " ++ text
               rank := 1 }]
      else
        match body with
        | .error msg => .error msg
        | .ok articles =>
            if articles.isEmpty then
              .ok [{ headline := "No news found"
                     source := "GNews"
                     category := topic
                     summary := "No articles found for this topic."
                     rank := 1 }]
            else
              .ok (rankArticles topic 0 articles)

/-- `get_trending_news` with its `except Exception` clause: any raised
exception becomes the single "Error fetching news" item.  The
`category` parameter is declared in the source signature (src/main.py
line 64) but never read by the body. -/
def get_trending_news (topic category : Option String) (pr : NewsHttp) : List TrendingItem :=
  match get_trending_news_inner topic pr with
  | .ok v => v
  | .error e =>
      [{ headline := "Error fetching news"
         source := "Exception"
         category := topic
         summary := e
         rank := 1 }]

/-! ### fact_check_claim (src/main.py lines 119-137) -/

/-- One item of the Google Custom Search response; only its `link` is
read. -/
structure SearchItem where
  link : String
deriving DecidableEq, Repr

/-- Outcome of the web search inside `fact_check_claim`: either the
decoded `items` list (possibly empty, `.get("items", [])`), or a raised
exception (network error, JSON decoding error, missing `link` key). -/
inductive SearchOutcome where
  | success (items : List SearchItem)
  | failure (msg : String)
deriving DecidableEq, Repr

/-- Body of the `try` block of `fact_check_claim` (src/main.py lines
123-131): sources are the links of the first three items; the verdict
is two-valued on emptiness; `is_true` is always `None`. -/
def fact_check_inner : SearchOutcome → Except String FactCheckResult
  | .failure msg => .error msg
  | .success items =>
      .ok { is_true := none
            verdict := if items.isEmpty then "Unverified claim" else "Supporting sources found"
            sources := (items.take 3).map SearchItem.link }

/-- `fact_check_claim` with its `except Exception` clause (src/main.py
lines 132-137).  The `claim` text only feeds the search URL, so the
result depends on it solely through the provider outcome `o`. -/
def fact_check_claim (claim : String) (o : SearchOutcome) : FactCheckResult :=
  match fact_check_inner o with
  | .ok v => v
  | .error e => { is_true := none, verdict := "Error: " ++ e, sources := [] }

/-! ### summarize_news (src/main.py lines 139-157) -/

/-- Outcome of the completion call inside `summarize_news`: the response
text `response.choices[0].message.content`, or a raised exception. -/
inductive CompletionOutcome where
  | success (text : String)
  | failure (msg : String)
deriving DecidableEq, Repr

/-- The line comprehension at src/main.py line 148 applied to the
stripped completion text: keep the lines whose plain `strip()` is
non-empty, then strip `"-• "` characters and surrounding whitespace
from each kept line (in that order). -/
def pyBulletLines (text : String) : List String :=
  ((pySplitNl (pyStrip text)).filter (fun l => pyStrip l ≠ "")).map
    (fun l => pyStrip (stripChars bulletChars l))

/-- Body of the `try` block of `summarize_news` (src/main.py lines
141-152). -/
def summarize_inner : CompletionOutcome → Except String NewsSummary
  | .failure msg => .error msg
  | .success text => .ok { topic := "Custom Article Summary", bullet_points := pyBulletLines text }

/-- `summarize_news` with its `except Exception` clause (src/main.py
lines 153-157).  The `article_text` only feeds the completion prompt,
so the result depends on it solely through the provider outcome `o`. -/
def summarize_news (article_text : String) (o : CompletionOutcome) : NewsSummary :=
  match summarize_inner o with
  | .ok v => v
  | .error e =>
      { topic := "Summarization Error"
        bullet_points := ["Failed to summarize article: " ++ e] }

/-! ### format_response (src/ui_Main.py lines 74-90)

The renderer receives one of the three typed result records (converted
to a dict via `model_dump`/`__dict__`) or any other value; it dispatches
on which discriminating key the dict has (`headline`, `verdict`,
`bullet_points`) and falls back to `str(output)` otherwise.  `AgentOutput`
embeds that input space; `hasField` records which keys each shape
carries. -/

inductive AgentOutput where
  | trending (t : TrendingItem)
  | factCheck (f : FactCheckResult)
  | newsSummary (s : NewsSummary)
  | other (reprStr : String)
deriving DecidableEq, Repr

/-- Key-presence test `k in output` for the dict obtained from each
shape; a non-dict value (`other`) has no keys. -/
def hasField : AgentOutput → String → Bool
  | .trending _, k => ["headline", "source", "category", "summary", "rank"].contains k
  | .factCheck _, k => ["is_true", "verdict", "sources"].contains k
  | .newsSummary _, k => ["topic", "bullet_points"].contains k
  | .other _, _ => false

/-- `format_response` (src/ui_Main.py lines 74-90), branch by branch:
`headline` present → headline/source/summary markup; else `verdict`
present → verdict line plus a bulleted link list; else `bullet_points`
present → topic line plus bullets; anything else → `str(output)`. -/
def format_response : AgentOutput → String
  | .trending t =>
      "**" ++ t.headline ++ "**\n\n_" ++ t.source ++ " – " ++ t.summary
  | .factCheck f =>
      "**Verdict:** " ++ f.verdict ++ "\n\n**Sources:**\n" ++
        String.intercalate "\n" (f.sources.map (fun s => "- [" ++ s ++ "](" ++ s ++ ")"))
  | .newsSummary s =>
      "**Topic:** " ++ s.topic ++ "\n\n" ++
        String.intercalate "\n" (s.bullet_points.map (fun pt => "- " ++ pt))
  | .other reprStr => reprStr

/-! ### Helper lemmas -/

/-- The ranks produced by `rankArticles` starting at offset `i` are the
consecutive integers `i+1, i+2, ...`. -/
theorem rank_rankArticles (topic : Option String) (i : Nat) (l : List Article) :
    (rankArticles topic i l).map TrendingItem.rank = List.range' (i + 1) l.length := by
  induction l generalizing i with
  | nil => rfl
  | cons a rest ih => simp [rankArticles, List.range'_succ, ih]

/-- `rankArticles` produces one item per article. -/
theorem length_rankArticles (topic : Option String) (i : Nat) (l : List Article) :
    (rankArticles topic i l).length = l.length := by
  induction l generalizing i with
  | nil => rfl
  | cons a rest ih => simp [rankArticles, ih]

/-- The i-th produced item takes its headline from the i-th article, in
provider order. -/
theorem headline_rankArticles (topic : Option String) (i : Nat) (l : List Article) :
    (rankArticles topic i l).map TrendingItem.headline =
      l.map (fun a => a.title.getD "No headline") := by
  induction l generalizing i with
  | nil => rfl
  | cons a rest ih => simp [rankArticles, ih]

/-- Dropping `p`-characters from the front of a right-then-left stripped
list is a no-op: the front character already fails `p`. -/
theorem dropWhile_strip_aux (p : Char → Bool) (l : List Char) :
    List.dropWhile p (List.rdropWhile p (List.dropWhile p l)) =
      List.rdropWhile p (List.dropWhile p l) := by
  rcases hA : List.rdropWhile p (List.dropWhile p l) with _ | ⟨a, A⟩
  · rfl
  · obtain ⟨t, ht⟩ := List.rdropWhile_prefix p (List.dropWhile p l)
    rw [hA] at ht
    have hd : List.dropWhile p l = a :: (A ++ t) := by rw [← ht]; simp
    have ha : p a = false := by
      by_contra hpa
      rw [Bool.not_eq_false] at hpa
      have h2 : List.dropWhile p (a :: (A ++ t)) = a :: (A ++ t) := by
        rw [← hd]
        exact List.dropWhile_idempotent p l
      simp only [List.dropWhile, hpa] at h2
      have h3 := congrArg List.length h2
      have h4 : (List.dropWhile p (A ++ t)).length ≤ (A ++ t).length :=
        (List.dropWhile_suffix p).sublist.length_le
      simp at h3 h4
      omega
    simp [List.dropWhile, ha]

/-- Stripping the same character set twice equals stripping it once. -/
theorem stripChars_idem (cs : List Char) (s : String) :
    stripChars cs (stripChars cs s) = stripChars cs s := by
  show String.mk _ = _
  unfold stripChars
  congr 1
  have h1 := dropWhile_strip_aux (cs.contains ·) s.data
  simp only [List.rdropWhile] at h1 ⊢
  rw [h1]
  have h2 := List.rdropWhile_idempotent (cs.contains ·)
    (List.dropWhile (cs.contains ·) s.data)
  simpa [List.rdropWhile] using h2

/-! ### Claim theorems -/

/-- Claim C1: no exception propagates out of the three capability
invokers: every provider failure is caught and converted into a
structurally valid degraded result of the invoker's own shape, and a
news-search call that sees a non-success HTTP status returns a
single-element batch whose summary is a human-readable error
description. -/
theorem C1_invokers_catch_failures :
    (∀ (topic category : Option String) (status : Nat) (text : String)
        (body : Except String (List Article)), status ≠ 200 →
        get_trending_news topic category (.response status text body) =
          [{ headline := "Failed to fetch news", source := "System", category := topic,
             summary := "API error " ++ toString status ++ ": " ++ text, rank := 1 }]) ∧
    (∀ (topic category : Option String) (pr : NewsHttp) (e : String),
        get_trending_news_inner topic pr = .error e →
        get_trending_news topic category pr =
          [{ headline := "Error fetching news", source := "Exception", category := topic,
             summary := e, rank := 1 }]) ∧
    (∀ (claim : String) (o : SearchOutcome) (e : String),
        fact_check_inner o = .error e →
        fact_check_claim claim o =
          { is_true := none, verdict := "Error: " ++ e, sources := [] }) ∧
    (∀ (article_text : String) (o : CompletionOutcome) (e : String),
        summarize_inner o = .error e →
        summarize_news article_text o =
          { topic := "Summarization Error",
            bullet_points := ["Failed to summarize article: " ++ e] }) := by
  refine ⟨?_, ?_, ?_, ?_⟩
  · intro topic category status text body h
    simp [get_trending_news, get_trending_news_inner, h]
  · intro topic category pr e h
    simp [get_trending_news, h]
  · intro claim o e h
    simp [fact_check_claim, h]
  · intro article_text o e h
    simp [summarize_news, h]

/-- Witness for C1 at concrete inputs: a 500 response, a raised network
error in each invoker. -/
theorem C1_witness :
    get_trending_news (some "tech") none (.response 500 "Server Error" (.ok [])) =
      [{ headline := "Failed to fetch news", source := "System", category := some "tech",
         summary := "API error " ++ toString 500 ++ ": " ++ "Server Error", rank := 1 }] ∧
    get_trending_news (some "tech") none (.failure "connection reset") =
      [{ headline := "Error fetching news", source := "Exception", category := some "tech",
         summary := "connection reset", rank := 1 }] ∧
    fact_check_claim "c" (.failure "timeout") =
      { is_true := none, verdict := "Error: " ++ "timeout", sources := [] } ∧
    summarize_news "a" (.failure "refused") =
      { topic := "Summarization Error",
        bullet_points := ["Failed to summarize article: " ++ "refused"] } :=
  ⟨C1_invokers_catch_failures.1 (some "tech") none 500 "Server Error" (.ok []) (by decide),
   C1_invokers_catch_failures.2.1 (some "tech") none (.failure "connection reset")
     "connection reset" rfl,
   C1_invokers_catch_failures.2.2.1 "c" (.failure "timeout") "timeout" rfl,
   C1_invokers_catch_failures.2.2.2 "a" (.failure "refused") "refused" rfl⟩

/-- Claim C2: a fact-check invocation whose search succeeds with zero
items yields verdict "Unverified claim" and empty sources; with at least
one item it yields "Supporting sources found" and the links of the first
min(3, n) items in provider order; `is_true` is always null. -/
theorem C2_fact_check_verdict_sources (claim : String) (items : List SearchItem) :
    fact_check_claim claim (.success items) =
      { is_true := none
        verdict := if items.isEmpty then "Unverified claim" else "Supporting sources found"
        sources := (items.take 3).map SearchItem.link } ∧
    (fact_check_claim claim (.success items)).sources.length = min 3 items.length := by
  refine ⟨rfl, ?_⟩
  simp [fact_check_claim, fact_check_inner]

/-- Claim C3: every execution path of the trending-news invoker returns
a non-empty batch whose ranks are exactly 1, 2, ..., n (strictly
ascending from 1, hence unique), and on the success path rank i+1 goes
to the i-th article in provider order. -/
theorem C3_trending_ranks_ascending :
    (∀ (topic category : Option String) (pr : NewsHttp),
        get_trending_news topic category pr ≠ [] ∧
        (get_trending_news topic category pr).map TrendingItem.rank =
          List.range' 1 (get_trending_news topic category pr).length) ∧
    (∀ (topic category : Option String) (text : String) (articles : List Article),
        articles ≠ [] →
        get_trending_news topic category (.response 200 text (.ok articles)) =
          rankArticles topic 0 articles ∧
        (rankArticles topic 0 articles).map TrendingItem.headline =
          articles.map (fun a => a.title.getD "No headline")) := by
  constructor
  · intro topic category pr
    rcases pr with ⟨status, text, body⟩ | msg
    · by_cases h : status = 200
      · subst h
        rcases body with msg | articles
        · constructor <;> simp [get_trending_news, get_trending_news_inner, List.range']
        · rcases articles with _ | ⟨a, rest⟩
          · constructor <;> simp [get_trending_news, get_trending_news_inner, List.range']
          · have hlen :
                (get_trending_news topic category
                   (.response 200 text (.ok (a :: rest)))).length = rest.length + 1 := by
              simp [get_trending_news, get_trending_news_inner, length_rankArticles]
            constructor
            · intro hc
              rw [hc] at hlen
              simp at hlen
            · rw [hlen]
              have hr := rank_rankArticles topic 0 (a :: rest)
              simp only [get_trending_news, get_trending_news_inner]
              simpa using hr
      · constructor <;> simp [get_trending_news, get_trending_news_inner, h, List.range']
    · constructor <;> simp [get_trending_news, get_trending_news_inner, List.range']
  · intro topic category text articles h
    have ha : articles.isEmpty = false := by
      rcases articles with _ | _
      · exact absurd rfl h
      · rfl
    constructor
    · simp [get_trending_news, get_trending_news_inner, ha]
    · exact headline_rankArticles topic 0 articles

/-- Witness for C3 at a concrete one-article 200 response. -/
theorem C3_witness :
    get_trending_news (some "tech") none
        (.response 200 "" (.ok [{ title := some "A", sourceName := some "S",
                                  description := some "d" }])) =
      rankArticles (some "tech") 0
        [{ title := some "A", sourceName := some "S", description := some "d" }] ∧
    (rankArticles (some "tech") 0
        [{ title := some "A", sourceName := some "S", description := some "d" }]).map
        TrendingItem.headline =
      [{ title := some "A", sourceName := some "S",
         description := some "d" : Article }].map (fun a => a.title.getD "No headline") :=
  C3_trending_ranks_ascending.2 (some "tech") none ""
    [{ title := some "A", sourceName := some "S", description := some "d" }] (by decide)

/-- Claim C4 counterexample: for the completion text
"- point one\n---\n\t- point two" the produced bullet list is
["point one", "", "- point two"]: it contains an empty element (the
all-marker line survives the emptiness filter, which runs before marker
stripping) and an element that retains its leading dash (the tab before
the dash is not in the stripped character set), refuting both claimed
guarantees. -/
theorem C4_counterexample :
    (summarize_news "art" (.success "- point one\n---\n\t- point two")).bullet_points =
      ["point one", "", "- point two"] ∧
    "" ∈ (summarize_news "art" (.success "- point one\n---\n\t- point two")).bullet_points ∧
    "- point two" ∈
      (summarize_news "art" (.success "- point one\n---\n\t- point two")).bullet_points ∧
    ("- point two").data.head? = some '-' := by decide

/-- Claim C4 (amended): the bullet list is obtained by splitting the
whitespace-stripped response on line breaks, dropping the lines that
are whitespace-only, then stripping dash/bullet/space characters from
both ends of each kept line followed by a whitespace trim; every
element is fully whitespace-trimmed, but an element may be empty (line
of markers only) or may retain a leading marker (marker preceded by
non-space whitespace). -/
theorem C4_amended_bullet_pipeline (article_text text : String) :
    (summarize_news article_text (.success text)).bullet_points =
      ((pySplitNl (pyStrip text)).filter (fun l => pyStrip l ≠ "")).map
        (fun l => pyStrip (stripChars bulletChars l)) ∧
    (∀ b ∈ (summarize_news article_text (.success text)).bullet_points, pyStrip b = b) := by
  refine ⟨rfl, ?_⟩
  intro b hb
  simp only [summarize_news, summarize_inner, pyBulletLines, List.mem_map] at hb
  obtain ⟨l, _, rfl⟩ := hb
  exact stripChars_idem pyWhitespace (stripChars bulletChars l)

/-- Witness for C4 (amended) at a concrete completion text and a
concrete bullet element. -/
theorem C4_witness :
    (summarize_news "art" (.success " - alpha \n\nbeta ")).bullet_points =
      ((pySplitNl (pyStrip " - alpha \n\nbeta ")).filter (fun l => pyStrip l ≠ "")).map
        (fun l => pyStrip (stripChars bulletChars l)) ∧
    pyStrip "alpha" = "alpha" :=
  ⟨(C4_amended_bullet_pipeline "art" " - alpha \n\nbeta ").1,
   (C4_amended_bullet_pipeline "art" " - alpha \n\nbeta ").2 "alpha" (by decide)⟩

/-- Claim C5: the stubbed completion response
"- point one\n- point two\n- point three" yields a summary whose
bullet points are exactly ["point one", "point two", "point three"]. -/
theorem C5_summarize_scenario :
    summarize_news "OpenAI expands GPT access to new platforms"
        (.success "- point one\n- point two\n- point three") =
      { topic := "Custom Article Summary",
        bullet_points := ["point one", "point two", "point three"] } := by decide

/-- Claim C6: the renderer dispatches on the discriminating field of the
given record — a record with a headline field becomes headline + source
+ summary markup, one with a verdict field becomes a verdict line plus
bulleted source links, one with a bullet_points field becomes a topic
line plus bulleted points — and any other value renders as its textual
representation; as a Lean function it is deterministic and
side-effect-free. -/
theorem C6_format_response_dispatch (t : TrendingItem) (f : FactCheckResult)
    (s : NewsSummary) (r : String) :
    (hasField (.trending t) "headline" = true ∧
      format_response (.trending t) =
        "**" ++ t.headline ++ "**\n\n_" ++ t.source ++ " – " ++ t.summary) ∧
    (hasField (.factCheck f) "headline" = false ∧ hasField (.factCheck f) "verdict" = true ∧
      format_response (.factCheck f) =
        "**Verdict:** " ++ f.verdict ++ "\n\n**Sources:**\n" ++
          String.intercalate "\n" (f.sources.map (fun u => "- [" ++ u ++ "](" ++ u ++ ")"))) ∧
    (hasField (.newsSummary s) "headline" = false ∧
      hasField (.newsSummary s) "verdict" = false ∧
      hasField (.newsSummary s) "bullet_points" = true ∧
      format_response (.newsSummary s) =
        "**Topic:** " ++ s.topic ++ "\n\n" ++
          String.intercalate "\n" (s.bullet_points.map (fun pt => "- " ++ pt))) ∧
    (hasField (.other r) "headline" = false ∧ hasField (.other r) "verdict" = false ∧
      hasField (.other r) "bullet_points" = false ∧
      format_response (.other r) = r) :=
  ⟨⟨rfl, rfl⟩, ⟨rfl, rfl, rfl⟩, ⟨rfl, rfl, rfl, rfl⟩, ⟨rfl, rfl, rfl, rfl⟩⟩

/-- Claim C7 counterexample: only three settings are required, not four:
with BASE_URL, API_KEY and MODEL_NAME present, the startup check passes
no matter which of the remaining settings is absent, so no fourth
setting is startup-required. -/
theorem C7_counterexample :
    startupCheck { BASE_URL := some "u", API_KEY := some "k", MODEL_NAME := some "m",
                   GNEWS_API_KEY := none, GOOGLE_API_KEY := some "g",
                   SEARCH_ENGINE_ID := some "cx" } = .ok () ∧
    startupCheck { BASE_URL := some "u", API_KEY := some "k", MODEL_NAME := some "m",
                   GNEWS_API_KEY := some "g", GOOGLE_API_KEY := none,
                   SEARCH_ENGINE_ID := some "cx" } = .ok () ∧
    startupCheck { BASE_URL := some "u", API_KEY := some "k", MODEL_NAME := some "m",
                   GNEWS_API_KEY := some "g", GOOGLE_API_KEY := some "cx",
                   SEARCH_ENGINE_ID := none } = .ok () :=
  ⟨rfl, rfl, rfl⟩

/-- Claim C7 (amended): absence (or emptiness) of any of the three
required settings — model endpoint base, model access key, model
identifier — makes the startup check raise the configuration error, and
when all three are present it raises nothing; the required settings are
these three. -/
theorem C7_amended_config_check (e : Env) :
    ((envTruthy e.BASE_URL = false ∨ envTruthy e.API_KEY = false ∨
        envTruthy e.MODEL_NAME = false) →
      startupCheck e =
        .error "Please set BASE_URL, API_KEY, and MODEL_NAME in your environment.") ∧
    (envTruthy e.BASE_URL = true → envTruthy e.API_KEY = true →
      envTruthy e.MODEL_NAME = true → startupCheck e = .ok ()) := by
  constructor
  · intro h
    rcases h with h | h | h <;> simp [startupCheck, h]
  · intro h1 h2 h3
    simp [startupCheck, h1, h2, h3]

/-- Witness for C7 (amended): an empty environment fails the check, an
environment with exactly the three settings passes it. -/
theorem C7_witness :
    startupCheck { BASE_URL := none, API_KEY := none, MODEL_NAME := none,
                   GNEWS_API_KEY := none, GOOGLE_API_KEY := none,
                   SEARCH_ENGINE_ID := none } =
      .error "Please set BASE_URL, API_KEY, and MODEL_NAME in your environment." ∧
    startupCheck { BASE_URL := some "b", API_KEY := some "a", MODEL_NAME := some "n",
                   GNEWS_API_KEY := none, GOOGLE_API_KEY := none,
                   SEARCH_ENGINE_ID := none } = .ok () :=
  ⟨(C7_amended_config_check _).1 (Or.inl rfl),
   (C7_amended_config_check _).2 (by decide) (by decide) (by decide)⟩

/-- Claim C8: constructing a session context without preferred topics
yields an empty topic list, without a session start yields the current
time; supplied values are kept unchanged and the user id is exactly the
one supplied. -/
theorem C8_user_context_defaults (uid : String) (ts : List String) (st now : Nat) :
    UserContext.make uid none none now =
      { user_id := uid, preferred_topics := [], session_start := now } ∧
    UserContext.make uid (some ts) (some st) now =
      { user_id := uid, preferred_topics := ts, session_start := st } ∧
    UserContext.make uid (some ts) none now =
      { user_id := uid, preferred_topics := ts, session_start := now } ∧
    UserContext.make uid none (some st) now =
      { user_id := uid, preferred_topics := [], session_start := st } ∧
    (∀ (pt : Option (List String)) (ss : Option Nat),
      (UserContext.make uid pt ss now).user_id = uid) :=
  ⟨rfl, rfl, rfl, rfl, fun _ _ => rfl⟩

/-- Claim C9: each capability invoker is deterministic in its arguments
and the provider outcome: two runs with identical arguments against
identical provider responses yield identical typed outputs. -/
theorem C9_invokers_deterministic
    (t₁ t₂ c₁ c₂ : Option String) (p₁ p₂ : NewsHttp)
    (cl₁ cl₂ : String) (o₁ o₂ : SearchOutcome)
    (a₁ a₂ : String) (m₁ m₂ : CompletionOutcome) :
    (t₁ = t₂ → c₁ = c₂ → p₁ = p₂ →
      get_trending_news t₁ c₁ p₁ = get_trending_news t₂ c₂ p₂) ∧
    (cl₁ = cl₂ → o₁ = o₂ → fact_check_claim cl₁ o₁ = fact_check_claim cl₂ o₂) ∧
    (a₁ = a₂ → m₁ = m₂ → summarize_news a₁ m₁ = summarize_news a₂ m₂) :=
  ⟨fun h1 h2 h3 => by rw [h1, h2, h3],
   fun h1 h2 => by rw [h1, h2],
   fun h1 h2 => by rw [h1, h2]⟩

/-- Witness for C9 at concrete repeated runs. -/
theorem C9_witness :
    get_trending_news (some "tech") none (.failure "x") =
      get_trending_news (some "tech") none (.failure "x") ∧
    fact_check_claim "c" (.success []) = fact_check_claim "c" (.success []) ∧
    summarize_news "a" (.failure "y") = summarize_news "a" (.failure "y") :=
  ⟨(C9_invokers_deterministic (some "tech") (some "tech") none none
      (.failure "x") (.failure "x") "c" "c" (.success []) (.success [])
      "a" "a" (.failure "y") (.failure "y")).1 rfl rfl rfl,
   (C9_invokers_deterministic (some "tech") (some "tech") none none
      (.failure "x") (.failure "x") "c" "c" (.success []) (.success [])
      "a" "a" (.failure "y") (.failure "y")).2.1 rfl rfl,
   (C9_invokers_deterministic (some "tech") (some "tech") none none
      (.failure "x") (.failure "x") "c" "c" (.success []) (.success [])
      "a" "a" (.failure "y") (.failure "y")).2.2 rfl rfl⟩

/-- Claim C10: when the search provider raises, the fact-check invoker
returns a record whose verdict starts with "Error: " — a third verdict
value distinct from the two documented ones — with null `is_true` and
empty sources. -/
theorem C10_error_verdict_third_value :
    fact_check_claim "Did Apple acquire OpenAI?" (.failure "boom") =
      { is_true := none, verdict := "Error: " ++ "boom", sources := [] } ∧
    (fact_check_claim "Did Apple acquire OpenAI?" (.failure "boom")).verdict ≠
      "Unverified claim" ∧
    (fact_check_claim "Did Apple acquire OpenAI?" (.failure "boom")).verdict ≠
      "Supporting sources found" := by decide

end NewsSense
